import Mathlib

/-
Verification of the lily-remote agent core against its specification.

The Python sources under src/agent are shallowly embedded here:
dictionaries become insertion-ordered association lists, time.time()
values become explicit integer parameters (none of the properties
below depends on fractional timestamps; real-valued quantities of the
adaptive quality controller stay rational), random values (challenges,
tokens) and cryptographic outcomes (SHA-256, RSA signature checks)
become function or boolean parameters, and exceptions become Except
or Option results.  Mutation of shared Python objects through the
command queue (the FIFO and the id directory alias the same Command
objects) is modelled with an explicit heap of commands addressed by
natural-number references.
-/

set_option maxHeartbeats 1000000

/-- Decidable equality for Except results, used to evaluate concrete runs. -/
instance {ε α : Type} [DecidableEq ε] [DecidableEq α] : DecidableEq (Except ε α) := by
  intro a b
  cases a <;> cases b
  case error.error e1 e2 => exact decidable_of_iff (e1 = e2) (by simp)
  case error.ok e1 x2 => exact Decidable.isFalse (by simp)
  case ok.error x1 e2 => exact Decidable.isFalse (by simp)
  case ok.ok x1 x2 => exact decidable_of_iff (x1 = x2) (by simp)

/-! ## Insertion-ordered dictionaries (Python dict semantics) -/

/-- Python dict: association list in insertion order. -/
abbrev Assoc (κ α : Type) := List (κ × α)

/-- Lookup, first matching key (keys are unique when built by set). -/
def Assoc.get? {κ α : Type} [DecidableEq κ] : Assoc κ α → κ → Option α
  | [], _ => Option.none
  | (k, v) :: rest, key => if k = key then some v else Assoc.get? rest key

/-- Python `key in d`. -/
def Assoc.hasKey {κ α : Type} [DecidableEq κ] (d : Assoc κ α) (k : κ) : Bool :=
  (d.get? k).isSome

/-- Python `d[k] = v`: update in place if present, else append. -/
def Assoc.set {κ α : Type} [DecidableEq κ] : Assoc κ α → κ → α → Assoc κ α
  | [], key, v => [(key, v)]
  | (k, w) :: rest, key, v =>
    if k = key then (key, v) :: rest else (k, w) :: Assoc.set rest key v

/-- Python `del d[k]` (first occurrence). -/
def Assoc.erase {κ α : Type} [DecidableEq κ] : Assoc κ α → κ → Assoc κ α
  | [], _ => []
  | (k, w) :: rest, key => if k = key then rest else (k, w) :: Assoc.erase rest key

/-- Python `d.values()` in insertion order. -/
def Assoc.values {κ α : Type} (d : Assoc κ α) : List α := d.map Prod.snd

/-! ## Dynamic Python values appearing in raw command dictionaries -/

/-- A dynamically typed Python value as it can appear in a request body.
List values occur only as the keys argument of hotkey, a list of
key-name strings, so the list payload is a list of strings. -/
inductive PyVal where
  | int : Int → PyVal
  | float : Rat → PyVal
  | bool : Bool → PyVal
  | str : String → PyVal
  | list : List String → PyVal
  | pynone : PyVal
deriving DecidableEq, Repr

/-- Python truthiness. -/
def PyVal.truthy : PyVal → Bool
  | .int i => i != 0
  | .float q => q != 0
  | .bool b => b
  | .str s => s ≠ ""
  | .list l => !l.isEmpty
  | .pynone => false

/-- isinstance(v, (int, float)): Python bool is a subclass of int. -/
def PyVal.isNumber : PyVal → Bool
  | .int _ => true
  | .float _ => true
  | .bool _ => true
  | _ => false

/-- isinstance(v, str). -/
def PyVal.isStr : PyVal → Bool
  | .str _ => true
  | _ => false

/-- isinstance(v, list). -/
def PyVal.isList : PyVal → Bool
  | .list _ => true
  | _ => false

/-- Python int(v) for numeric v: truncation toward zero. -/
def PyVal.toInt : PyVal → Int
  | .int i => i
  | .float q => q.num / (q.den : Int)
  | .bool b => if b then 1 else 0
  | _ => 0

/-- Python str(v) as used in f-string error messages. -/
def PyVal.fmt : PyVal → String
  | .int i => toString i
  | .float q => toString q
  | .bool b => if b then "True" else "False"
  | .str s => s
  | .list _ => "[...]"
  | .pynone => "None"

/-- A raw command dictionary from the request body. -/
abbrev RawCmd := Assoc String PyVal

/-- `cmd_data.get(k)`: Python dict.get returns None when absent. -/
def RawCmd.pyget (d : RawCmd) (k : String) : PyVal :=
  (Assoc.get? d k).getD PyVal.pynone

/-! ## Command data model (src/agent/api/commands.py) -/

/-- Status of a command in the queue. -/
inductive CommandStatus where
  | queued
  | running
  | succeeded
  | failed
deriving DecidableEq, Repr

def CommandStatus.value : CommandStatus → String
  | .queued => "queued"
  | .running => "running"
  | .succeeded => "succeeded"
  | .failed => "failed"

/-- Types of commands that can be executed. -/
inductive CommandType where
  | click
  | double_click
  | right_click
  | move
  | drag
  | type
  | hotkey
  | key_down
  | key_up
  | key_press
  | scroll
deriving DecidableEq, Repr

def CommandType.value : CommandType → String
  | .click => "click"
  | .double_click => "double_click"
  | .right_click => "right_click"
  | .move => "move"
  | .drag => "drag"
  | .type => "type"
  | .hotkey => "hotkey"
  | .key_down => "key_down"
  | .key_up => "key_up"
  | .key_press => "key_press"
  | .scroll => "scroll"

/-- `CommandType(s)`: enum lookup by value, ValueError modelled as none. -/
def CommandType.ofString? (s : String) : Option CommandType :=
  if s = "click" then some .click
  else if s = "double_click" then some .double_click
  else if s = "right_click" then some .right_click
  else if s = "move" then some .move
  else if s = "drag" then some .drag
  else if s = "type" then some .type
  else if s = "hotkey" then some .hotkey
  else if s = "key_down" then some .key_down
  else if s = "key_up" then some .key_up
  else if s = "key_press" then some .key_press
  else if s = "scroll" then some .scroll
  else Option.none

/-- Result of a command execution. -/
structure CommandResult where
  success : Bool
  data : Option (Assoc String PyVal) := Option.none
  error : Option String := Option.none
  executed_at : Option Int := Option.none
deriving DecidableEq, Repr

/-- A command in the queue. -/
structure Command where
  id : PyVal
  type : CommandType
  session_id : String
  params : Assoc String PyVal
  status : CommandStatus := CommandStatus.queued
  result : Option CommandResult := Option.none
  created_at : Int
  started_at : Option Int := Option.none
  completed_at : Option Int := Option.none
deriving DecidableEq, Repr

/-- Exceptions raised by CommandQueue.submit. -/
inductive SubmitError where
  | invalidCommand : String → SubmitError
  | commandError : String → SubmitError
deriving DecidableEq, Repr

/--
State of a CommandQueue.  Python aliases the same Command object from
the asyncio FIFO and the id directory, so commands live in a heap of
references: `heap` is the object store, `fifo` the pending references
in queue order, `commands` the id directory mapping ids to references.
-/
structure QueueState where
  heap : List Command
  fifo : List Nat
  commands : Assoc PyVal Nat
  maxSize : Nat := 1000
deriving DecidableEq, Repr

def QueueState.init : QueueState := { heap := [], fifo := [], commands := [] }

/-- `_validate_command_params` from commands.py. -/
def CommandQueue.validateParams (cmdId : PyVal) (ty : CommandType) (d : RawCmd) :
    Except SubmitError Unit :=
  match ty with
  | .click | .double_click | .right_click | .move =>
    if !(d.hasKey "x") || !(d.hasKey "y") then
      Except.error (SubmitError.invalidCommand
        ("Command " ++ cmdId.fmt ++ " of type " ++ ty.value ++
          " requires x and y coordinates"))
    else if !(d.pyget "x").isNumber then
      Except.error (SubmitError.invalidCommand
        ("Command " ++ cmdId.fmt ++ ": x must be a number"))
    else if !(d.pyget "y").isNumber then
      Except.error (SubmitError.invalidCommand
        ("Command " ++ cmdId.fmt ++ ": y must be a number"))
    else Except.ok ()
  | .type =>
    if !(d.hasKey "text") then
      Except.error (SubmitError.invalidCommand
        ("Command " ++ cmdId.fmt ++ " of type type requires text field"))
    else if !(d.pyget "text").isStr then
      Except.error (SubmitError.invalidCommand
        ("Command " ++ cmdId.fmt ++ ": text must be a string"))
    else Except.ok ()
  | .hotkey =>
    if !(d.hasKey "keys") then
      Except.error (SubmitError.invalidCommand
        ("Command " ++ cmdId.fmt ++ " of type hotkey requires keys field"))
    else if !(d.pyget "keys").isList then
      Except.error (SubmitError.invalidCommand
        ("Command " ++ cmdId.fmt ++ ": keys must be a list"))
    else if d.pyget "keys" = PyVal.list [] then
      Except.error (SubmitError.invalidCommand
        ("Command " ++ cmdId.fmt ++ ": keys cannot be empty"))
    else Except.ok ()
  | .key_down | .key_up =>
    if !(d.hasKey "key") then
      Except.error (SubmitError.invalidCommand
        ("Command " ++ cmdId.fmt ++ " of type " ++ ty.value ++ " requires key field"))
    else Except.ok ()
  | .scroll =>
    if !(d.hasKey "delta") then
      Except.error (SubmitError.invalidCommand
        ("Command " ++ cmdId.fmt ++ " of type scroll requires delta field"))
    else Except.ok ()
  | .drag =>
    if !(d.hasKey "start_x") then
      Except.error (SubmitError.invalidCommand
        ("Command " ++ cmdId.fmt ++ " of type drag requires start_x field"))
    else if !(d.pyget "start_x").isNumber then
      Except.error (SubmitError.invalidCommand
        ("Command " ++ cmdId.fmt ++ ": start_x must be a number"))
    else if !(d.hasKey "start_y") then
      Except.error (SubmitError.invalidCommand
        ("Command " ++ cmdId.fmt ++ " of type drag requires start_y field"))
    else if !(d.pyget "start_y").isNumber then
      Except.error (SubmitError.invalidCommand
        ("Command " ++ cmdId.fmt ++ ": start_y must be a number"))
    else if !(d.hasKey "end_x") then
      Except.error (SubmitError.invalidCommand
        ("Command " ++ cmdId.fmt ++ " of type drag requires end_x field"))
    else if !(d.pyget "end_x").isNumber then
      Except.error (SubmitError.invalidCommand
        ("Command " ++ cmdId.fmt ++ ": end_x must be a number"))
    else if !(d.hasKey "end_y") then
      Except.error (SubmitError.invalidCommand
        ("Command " ++ cmdId.fmt ++ " of type drag requires end_y field"))
    else if !(d.pyget "end_y").isNumber then
      Except.error (SubmitError.invalidCommand
        ("Command " ++ cmdId.fmt ++ ": end_y must be a number"))
    else Except.ok ()
  | .key_press =>
    if !(d.hasKey "key") then
      Except.error (SubmitError.invalidCommand
        ("Command " ++ cmdId.fmt ++ " of type key_press requires key field"))
    else Except.ok ()

/-- `d.get(k, default)` used during parameter extraction. -/
def RawCmd.getD (d : RawCmd) (k : String) (default : PyVal) : PyVal :=
  (Assoc.get? d k).getD default

/-- `_extract_params` from commands.py. -/
def CommandQueue.extractParams (ty : CommandType) (d : RawCmd) : Assoc String PyVal :=
  match ty with
  | .click =>
    [("x", PyVal.int (d.pyget "x").toInt), ("y", PyVal.int (d.pyget "y").toInt),
      ("button", d.getD "button" (PyVal.str "left"))]
  | .double_click | .right_click | .move =>
    [("x", PyVal.int (d.pyget "x").toInt), ("y", PyVal.int (d.pyget "y").toInt)]
  | .type =>
    [("text", d.pyget "text"), ("interval", d.getD "interval" (PyVal.float 0))]
  | .hotkey => [("keys", d.pyget "keys")]
  | .key_down | .key_up | .key_press => [("key", d.pyget "key")]
  | .scroll =>
    [("delta", PyVal.int (d.pyget "delta").toInt),
      ("x", if d.getD "x" PyVal.pynone = PyVal.pynone then PyVal.pynone
            else PyVal.int (d.getD "x" (PyVal.int 0)).toInt),
      ("y", if d.getD "y" PyVal.pynone = PyVal.pynone then PyVal.pynone
            else PyVal.int (d.getD "y" (PyVal.int 0)).toInt),
      ("horizontal", d.getD "horizontal" (PyVal.bool false))]
  | .drag =>
    [("start_x", PyVal.int (d.pyget "start_x").toInt),
      ("start_y", PyVal.int (d.pyget "start_y").toInt),
      ("end_x", PyVal.int (d.pyget "end_x").toInt),
      ("end_y", PyVal.int (d.pyget "end_y").toInt),
      ("button", d.getD "button" (PyVal.str "left")),
      ("duration", d.getD "duration" (PyVal.float ((5 : Rat)/10))),
      ("steps", d.getD "steps" (PyVal.int 20))]

/--
One iteration of the loop body of `CommandQueue.submit`: validate the
element, check for a duplicate id, enqueue and insert into the
directory.  Returns the mutated state and the queued id, or the raised
exception (the state is untouched by a failing iteration).
-/
def CommandQueue.submitOne (st : QueueState) (sessionId : String) (now : Int)
    (cmdData : RawCmd) : Except SubmitError (QueueState × PyVal) := do
  let cmdId := cmdData.pyget "id"
  let cmdTypeVal := cmdData.pyget "type"
  if !cmdId.truthy then
    throw (SubmitError.invalidCommand ("Command missing id field"))
  if !cmdTypeVal.truthy then
    throw (SubmitError.invalidCommand
      ("Command " ++ cmdId.fmt ++ " missing type field"))
  let ty ← match cmdTypeVal with
    | PyVal.str s =>
      match CommandType.ofString? s with
      | some ty => pure ty
      | Option.none =>
        throw (SubmitError.invalidCommand
          ("Invalid command type " ++ s ++ " for command " ++ cmdId.fmt))
    | other =>
      throw (SubmitError.invalidCommand
        ("Invalid command type " ++ other.fmt ++ " for command " ++ cmdId.fmt))
  let _ ← CommandQueue.validateParams cmdId ty cmdData
  let command : Command :=
    { id := cmdId, type := ty, session_id := sessionId,
      params := CommandQueue.extractParams ty cmdData, created_at := now }
  if st.commands.hasKey cmdId then
    throw (SubmitError.invalidCommand ("Duplicate command ID: " ++ cmdId.fmt))
  if st.fifo.length ≥ st.maxSize then
    throw (SubmitError.commandError ("Command queue is full"))
  let ref := st.heap.length
  let st' : QueueState :=
    { st with
      heap := st.heap ++ [command]
      fifo := st.fifo ++ [ref]
      commands := st.commands.set cmdId ref }
  pure (st', cmdId)

/--
The loop of `CommandQueue.submit` over a batch.  An exception leaves
the mutations of the previously accepted iterations in place, exactly
as in the Python method (self is mutated as the loop runs).
-/
def CommandQueue.submitGo (st : QueueState) (sessionId : String) (now : Int) :
    List RawCmd → QueueState × Except SubmitError (List PyVal)
  | [] => (st, Except.ok [])
  | c :: rest =>
    match CommandQueue.submitOne st sessionId now c with
    | Except.error e => (st, Except.error e)
    | Except.ok (st', cid) =>
      match CommandQueue.submitGo st' sessionId now rest with
      | (st'', Except.ok ids) => (st'', Except.ok (cid :: ids))
      | (st'', Except.error e) => (st'', Except.error e)

/-- `CommandQueue.submit`: submit a batch of commands to the queue. -/
def CommandQueue.submit (st : QueueState) (commands : List RawCmd)
    (sessionId : String) (now : Int) : QueueState × Except SubmitError (List PyVal) :=
  CommandQueue.submitGo st sessionId now commands

/-- `CommandQueue.get_status`: directory lookup, None means not found. -/
def CommandQueue.getStatus (st : QueueState) (commandId : PyVal) : Option Command :=
  match st.commands.get? commandId with
  | some ref => st.heap.get? ref
  | Option.none => Option.none

/--
Outcome of awaiting the executor with the 30 second timeout in
`CommandQueue.execute`: the executor returned a result, the wait timed
out, the executor raised, or no executor was configured (the early
return at the top of the method).
-/
inductive ExecOutcome where
  | res : CommandResult → ExecOutcome
  | timedOut : ExecOutcome
  | exn : String → ExecOutcome
  | noExecutor : ExecOutcome
deriving DecidableEq, Repr

/--
`CommandQueue.execute`: set the command Running, run the executor,
then record the result and the terminal state.  `ref` is the reference
of the command object (the Python parameter is the object itself).
`tStart` and `tEnd` are the two time.time() readings.  With no
executor configured the method returns before touching the command.
-/
def CommandQueue.execute (outcome : ExecOutcome) (tStart tEnd : Int)
    (st : QueueState) (ref : Nat) : QueueState :=
  match st.heap.get? ref with
  | Option.none => st
  | some cmd =>
    match outcome with
    | ExecOutcome.noExecutor => st
    | _ =>
      let running := { cmd with status := CommandStatus.running, started_at := some tStart }
      let result : CommandResult :=
        match outcome with
        | ExecOutcome.res r => r
        | ExecOutcome.timedOut =>
          { success := false, error := some ("Command timed out after 30.0s"),
            executed_at := some tEnd }
        | ExecOutcome.exn msg =>
          { success := false, error := some msg, executed_at := some tEnd }
        | ExecOutcome.noExecutor =>
          { success := false, error := some ("No executor configured"),
            executed_at := some tEnd }
      let final :=
        { running with
          result := some result
          completed_at := some tEnd
          status := if result.success then CommandStatus.succeeded
                    else CommandStatus.failed }
      { st with heap := st.heap.set ref final }

/--
One iteration of `CommandQueue._process_loop`: dequeue the next
command reference from the FIFO and execute it.  The loop performs no
status check before executing the dequeued command.
-/
def CommandQueue.processStep (outcome : ExecOutcome) (tStart tEnd : Int)
    (st : QueueState) : QueueState :=
  match st.fifo with
  | [] => st
  | ref :: rest =>
    CommandQueue.execute outcome tStart tEnd { st with fifo := rest } ref

/--
`CommandQueue.cancel_session_commands`: every command of the session
whose status is Queued in the directory becomes Failed with error
"Session ended"; the FIFO is not touched.
-/
def CommandQueue.cancelSessionCommands (st : QueueState) (sessionId : String)
    (now : Int) : QueueState × Nat :=
  st.commands.values.foldl
    (fun acc ref =>
      match acc.1.heap.get? ref with
      | some cmd =>
        if cmd.session_id = sessionId ∧ cmd.status = CommandStatus.queued then
          let cmd' :=
            { cmd with
              status := CommandStatus.failed
              result := some { success := false, error := some ("Session ended"),
                               executed_at := some now }
              completed_at := some now }
          ({ acc.1 with heap := acc.1.heap.set ref cmd' }, acc.2 + 1)
        else acc
      | Option.none => acc)
    (st, 0)

/--
`CommandQueue.clear_completed`: remove terminal commands older than
max_age from the directory (Python also skips a completed_at of 0.0,
which is falsy).
-/
def CommandQueue.clearCompleted (st : QueueState) (now : Int)
    (maxAge : Int := 300) : QueueState × Nat :=
  let toRemove :=
    (st.commands.filter fun kv =>
      match st.heap.get? kv.2 with
      | some cmd =>
        decide (cmd.status = CommandStatus.succeeded ∨
            cmd.status = CommandStatus.failed) &&
          (match cmd.completed_at with
           | some t => decide (t ≠ 0) && decide (now - t > maxAge)
           | Option.none => false)
      | Option.none => false).map Prod.fst
  ({ st with commands := toRemove.foldl Assoc.erase st.commands }, toRemove.length)

/-! ## Session manager (src/agent/api/session.py) -/

/-- State of a control session. -/
inductive SessionState where
  | active
  | ended
deriving DecidableEq, Repr

/-- A control session. -/
structure Session where
  session_id : String
  client_id : String
  started_at : Int
  ended_at : Option Int := Option.none
  state : SessionState := SessionState.active
  command_count : Nat := 0
deriving DecidableEq, Repr

/-- `Session.is_active`. -/
def Session.isActive (s : Session) : Bool := s.state = SessionState.active

/-- State of a SessionManager. -/
structure SessionManagerState where
  sessions : Assoc String Session
  client_sessions : Assoc String String
  max_session_duration : Int := 3600
deriving DecidableEq, Repr

/-- `SessionManager._is_session_expired`. -/
def SessionManager.isExpired (sm : SessionManagerState) (s : Session) (now : Int) : Bool :=
  now - s.started_at > sm.max_session_duration

/-- `SessionManager._end_session_internal`. -/
def SessionManager.endSessionInternal (sm : SessionManagerState) (s : Session)
    (now : Int) : SessionManagerState :=
  let s' := { s with ended_at := some now, state := SessionState.ended }
  let sessions := sm.sessions.set s.session_id s'
  let cs :=
    if sm.client_sessions.get? s.client_id = some s.session_id then
      sm.client_sessions.erase s.client_id
    else sm.client_sessions
  { sm with sessions := sessions, client_sessions := cs }

/-- One iteration of the expiry sweep in get_active_sessions: re-read
the snapshot object through the table and end it if active + expired. -/
def SessionManager.expireStep (now : Int) (acc : SessionManagerState)
    (s0 : Session) : SessionManagerState :=
  match acc.sessions.get? s0.session_id with
  | some s =>
    if s.isActive ∧ SessionManager.isExpired acc s now then
      SessionManager.endSessionInternal acc s now
    else acc
  | Option.none => acc

/--
`SessionManager.get_active_sessions`: lazily end the expired active
sessions (iterating over a snapshot of the session objects and
re-reading each through the table), then return the active ones.
-/
def SessionManager.getActiveSessions (sm : SessionManagerState) (now : Int) :
    SessionManagerState × List Session :=
  let sm' := sm.sessions.values.foldl (SessionManager.expireStep now) sm
  (sm', sm'.sessions.values.filter Session.isActive)

/-- One iteration of the force_end_all_sessions sweep. -/
def SessionManager.forceEndStep (now : Int) (acc : SessionManagerState × Nat)
    (s0 : Session) : SessionManagerState × Nat :=
  match acc.1.sessions.get? s0.session_id with
  | some s =>
    if s.isActive then (SessionManager.endSessionInternal acc.1 s now, acc.2 + 1)
    else acc
  | Option.none => acc

/-- `SessionManager.force_end_all_sessions`. -/
def SessionManager.forceEndAllSessions (sm : SessionManagerState) (now : Int) :
    SessionManagerState × Nat :=
  sm.sessions.values.foldl (SessionManager.forceEndStep now) (sm, 0)

/-! ## Kill switch coordinator (src/agent/api/server.py) -/

/-- Process-wide kill switch state. -/
structure KillSwitchState where
  active : Bool := false
  activated_at : Option Int := Option.none
  activated_by : Option String := Option.none
  reason : Option String := Option.none
deriving DecidableEq, Repr

/-- An event broadcast to all connected event subscribers. -/
structure BroadcastEvent where
  name : String
  activated : Bool
  sessionsTerminated : Nat
deriving DecidableEq, Repr

/-- The server state touched by the kill switch path. -/
structure AgentState where
  sessions : SessionManagerState
  queue : QueueState
  killSwitch : KillSwitchState
deriving DecidableEq, Repr

/--
`activate_kill_switch` from server.py: snapshot the active sessions
(for audit logging), force end all sessions, replace the kill switch
state, then broadcast the kill_switch event.  The returned trace pairs
each emitted broadcast with the server state at the moment of
emission.  The handler never touches the command queue.
-/
def Server.activateKillSwitch (st : AgentState) (clientId : String) (now : Int) :
    AgentState × List (AgentState × BroadcastEvent) :=
  let sm1 := (SessionManager.getActiveSessions st.sessions now).1
  let fe := SessionManager.forceEndAllSessions sm1 now
  let ks : KillSwitchState :=
    { active := true, activated_at := some now, activated_by := some clientId,
      reason := some ("API activation") }
  let st' : AgentState := { sessions := fe.1, queue := st.queue, killSwitch := ks }
  (st', [(st', { name := "kill_switch", activated := true,
                 sessionsTerminated := fe.2 })])

/--
The `/session/end` handler path relevant to command cancellation:
after SessionManager.end_session succeeds it cancels the pending
commands of that session.  (Only this handler calls
cancel_session_commands anywhere in the server.)
-/
def Server.sessionEndCancels (st : AgentState) (sessionId : String) (now : Int) :
    AgentState :=
  { st with queue := (CommandQueue.cancelSessionCommands st.queue sessionId now).1 }

/-! ## Read-back verification (src/agent/control/verify_base.py) and the
move and drag handlers of CommandExecutor (src/agent/api/commands.py) -/

/-- Result of a controller input call (InputResult from input_base). -/
structure InputCallResult where
  success : Bool
  error : Option String := Option.none
deriving DecidableEq, Repr

/-- VerificationResult fields used by the executor handlers. -/
structure VerificationResult where
  success : Bool
  cursor_after : Int × Int
  cursor_delta : Int × Int
  error : Option String
deriving DecidableEq, Repr

/--
`VerifierBase.verify_cursor_position`: success iff the read-back
cursor is within the tolerance (default 5) on each axis.  `cursor` is
the position returned by get_cursor_position.
-/
def VerifierBase.verifyCursorPosition (cursor : Int × Int)
    (expectedX expectedY : Int) (tolerance : Int := 5) : VerificationResult :=
  let deltaX := |cursor.1 - expectedX|
  let deltaY := |cursor.2 - expectedY|
  let ok := deltaX ≤ tolerance ∧ deltaY ≤ tolerance
  { success := ok
    cursor_after := cursor
    cursor_delta := (cursor.1 - expectedX, cursor.2 - expectedY)
    error :=
      if ok then Option.none
      else some ("Cursor at (" ++ toString cursor.1 ++ ", " ++ toString cursor.2 ++
        "), expected (" ++ toString expectedX ++ ", " ++ toString expectedY ++ ")") }

/-- Python `a or b` over optional strings (None and "" are falsy). -/
def pyStrOr (a b : Option String) : Option String :=
  match a with
  | some s => if s ≠ "" then some s else b
  | Option.none => b

/--
`CommandExecutor._handle_move`: run the move, verify the cursor
position, and succeed only when both the input call and the
verification succeed.  `cursor` is the read-back cursor position.
-/
def CommandExecutor.handleMove (moveResult : InputCallResult) (cursor : Int × Int)
    (x y : Int) (now : Int) : CommandResult :=
  let verifyResult := VerifierBase.verifyCursorPosition cursor x y
  { success := moveResult.success && verifyResult.success
    data := some [("verify_success", PyVal.bool verifyResult.success),
                  ("cursor_after", PyVal.list [toString cursor.1, toString cursor.2])]
    error := pyStrOr moveResult.error verifyResult.error
    executed_at := some now }

/--
`CommandExecutor._handle_drag`: run the drag and verify the final
cursor position; the verification data is attached to the result, but
the success flag and the error are taken from the drag call alone.
-/
def CommandExecutor.handleDrag (dragResult : InputCallResult) (cursor : Int × Int)
    (endX endY : Int) (now : Int) : CommandResult :=
  let verifyResult := VerifierBase.verifyCursorPosition cursor endX endY
  { success := dragResult.success
    data := some [("verify_success", PyVal.bool verifyResult.success),
                  ("cursor_after", PyVal.list [toString cursor.1, toString cursor.2])]
    error := dragResult.error
    executed_at := some now }

/-! ## Token authentication (src/agent/security/auth.py) -/

/-- A paired client record (src/agent/security/pairing.py). -/
structure PairedClient where
  client_id : String
  client_name : String
  client_public_key_pem : String
  token_hash : String
  paired_at : Int
deriving DecidableEq, Repr

/-- Module-level default of the `_lan_mode` flag in auth.py. -/
def Auth.lanModeDefault : Bool := true

/-- Result of the verify_token dependency. -/
inductive AuthResult where
  | ok : String → AuthResult
  | httpError : Nat → String → AuthResult
deriving DecidableEq, Repr

/--
`_verify_token_hash`: hash the token and scan the paired clients for a
matching digest.  `sha256hex` abstracts hashlib.sha256(...).hexdigest().
-/
def Auth.verifyTokenHash (sha256hex : String → String)
    (clients : List PairedClient) (token : String) : Option String :=
  let tokenHash := sha256hex token
  (clients.find? fun c => c.token_hash = tokenHash).map PairedClient.client_id

/--
`verify_token` from auth.py: in LAN mode every request is accepted and
given the token itself (or "lan-client") as client id; otherwise a
missing or empty token is a 401, and an unmatched token is a 401.
`token` is what TokenBearer produced (None when no credentials).
-/
def Auth.verifyToken (sha256hex : String → String) (lanMode : Bool)
    (clients : List PairedClient) (token : Option String) : AuthResult :=
  if lanMode then
    AuthResult.ok
      (match token with
       | some t => if t ≠ "" then t else "lan-client"
       | Option.none => "lan-client")
  else
    match token with
    | Option.none => AuthResult.httpError 401 ("Not authenticated")
    | some t =>
      if t = "" then AuthResult.httpError 401 ("Not authenticated")
      else
        match Auth.verifyTokenHash sha256hex clients t with
        | some clientId => AuthResult.ok clientId
        | Option.none => AuthResult.httpError 401 ("Invalid or expired token")

/-! ## Pairing manager (src/agent/security/pairing.py) -/

/-- State of a pairing request. -/
inductive PairingState where
  | pending
  | approved
  | rejected
  | expired
deriving DecidableEq, Repr

/-- A pairing request from a client. -/
structure PairingRequest where
  client_id : String
  client_name : String
  client_public_key : String
  challenge : String
  created_at : Int
  expires_at : Int
  state : PairingState := PairingState.pending
deriving DecidableEq, Repr

/-- Mutable state of a PairingManager. -/
structure PairingManagerState where
  pending_requests : Assoc String PairingRequest
  paired_clients : Assoc String PairedClient
  lan_mode : Bool := true
deriving DecidableEq, Repr

/-- CHALLENGE_EXPIRY_SECONDS. -/
def PairingManager.challengeExpirySeconds : Int := 300

/-- `PairingManager._cleanup_expired_requests`. -/
def PairingManager.cleanupExpiredRequests (st : PairingManagerState) (now : Int) :
    PairingManagerState :=
  let expired := (st.pending_requests.filter fun kv => now > kv.2.expires_at).map Prod.fst
  { st with pending_requests := expired.foldl Assoc.erase st.pending_requests }

/-- Response of create_pairing_request. -/
structure PairRequestResponse where
  challenge : String
  expires : Int
  auto_approved : Bool
deriving DecidableEq, Repr

/--
`PairingManager.create_pairing_request`: drop a prior paired record
for the client, clean up expired requests, then store a new request
holding the raw public key string (the key is never parsed here) in
state Approved when in LAN mode, else Pending.  `challenge` abstracts
secrets.token_hex(32).
-/
def PairingManager.createPairingRequest (st : PairingManagerState)
    (clientId clientName clientPublicKeyPem : String) (challenge : String)
    (now : Int) : PairingManagerState × PairRequestResponse :=
  let st1 :=
    if st.paired_clients.hasKey clientId then
      { st with paired_clients := st.paired_clients.erase clientId }
    else st
  let st2 := PairingManager.cleanupExpiredRequests st1 now
  let expiresAt := now + PairingManager.challengeExpirySeconds
  let initialState :=
    if st.lan_mode then PairingState.approved else PairingState.pending
  let req : PairingRequest :=
    { client_id := clientId, client_name := clientName,
      client_public_key := clientPublicKeyPem, challenge := challenge,
      created_at := now, expires_at := expiresAt, state := initialState }
  ({ st2 with pending_requests := st2.pending_requests.set clientId req },
    { challenge := challenge, expires := expiresAt, auto_approved := st.lan_mode })

/-- Response of confirm_pairing on success. -/
structure PairConfirmResponse where
  paired : Bool
  token : String
  client_id : String
deriving DecidableEq, Repr

/--
Outcome of the out-of-band approval callback in confirm_pairing: not
configured, returned a boolean, or raised (treated as a rejection).
-/
inductive ApprovalOutcome where
  | noCallback
  | returned : Bool → ApprovalOutcome
  | raised
deriving DecidableEq, Repr

/--
The approval stage of confirm_pairing: LAN mode auto-approves; a
Pending request outside LAN mode asks the callback (an exception
rejects); otherwise the stored state stands.
-/
def PairingManager.approvalAdvance (lanMode : Bool) (reqState : PairingState)
    (approval : ApprovalOutcome) : PairingState :=
  if lanMode then PairingState.approved
  else if reqState = PairingState.pending then
    match approval with
    | ApprovalOutcome.noCallback => reqState
    | ApprovalOutcome.returned true => PairingState.approved
    | ApprovalOutcome.returned false => PairingState.rejected
    | ApprovalOutcome.raised => PairingState.rejected
  else reqState

/--
`PairingManager.confirm_pairing`: look up the pending request, drop it
when expired, approve via LAN mode or the callback, verify the
signature (a failure is tolerated in LAN mode), then issue the token,
store its hash in the paired-clients table and delete the request.
`sigOk` abstracts the PKCS#1 v1.5 SHA-256 verification (false also
covers an unparseable stored key), `token` abstracts
secrets.token_hex(32) and `sha256hex` the digest.
-/
def PairingManager.confirmPairing (sha256hex : String → String)
    (st : PairingManagerState) (clientId : String) (sigOk : Bool)
    (approval : ApprovalOutcome) (token : String) (now : Int) :
    PairingManagerState × Option PairConfirmResponse :=
  match st.pending_requests.get? clientId with
  | Option.none => (st, Option.none)
  | some request =>
    if now > request.expires_at then
      ({ st with pending_requests := st.pending_requests.erase clientId },
        Option.none)
    else
      let reqState :=
        PairingManager.approvalAdvance st.lan_mode request.state approval
      let st1 :=
        { st with pending_requests :=
            st.pending_requests.set clientId { request with state := reqState } }
      if reqState = PairingState.approved then
       if sigOk = false ∧ st.lan_mode = false then (st1, Option.none)
       else
        let tokenHash := sha256hex token
        let pairedClient : PairedClient :=
          { client_id := clientId, client_name := request.client_name,
            client_public_key_pem := request.client_public_key,
            token_hash := tokenHash, paired_at := now }
        ({ st1 with
            paired_clients := st1.paired_clients.set clientId pairedClient
            pending_requests := st1.pending_requests.erase clientId },
          some { paired := true, token := token, client_id := clientId })
      else (st1, Option.none)

/--
`PairingManager.verify_token`: hash the token and scan the paired
clients in insertion order for a matching digest.
-/
def PairingManager.verifyToken (sha256hex : String → String)
    (st : PairingManagerState) (token : String) : Option String :=
  let tokenHash := sha256hex token
  (st.paired_clients.find? fun kv => kv.2.token_hash = tokenHash).map Prod.fst

/-! ## Adaptive quality controller (src/agent/control/screen.py) -/

/-- Bandwidth estimation metrics: (timestamp, bytes) samples. -/
structure BandwidthMetrics where
  samples : List (Rat × Int) := []
  window_seconds : Rat := 5
  max_samples : Nat := 100
deriving DecidableEq, Repr

/-- Python `l[-n:]`. -/
def listTakeLast {α : Type} (l : List α) (n : Nat) : List α :=
  l.drop (l.length - n)

/-- `BandwidthMetrics.add_sample`. -/
def BandwidthMetrics.addSample (m : BandwidthMetrics) (now : Rat)
    (sizeBytes : Int) : BandwidthMetrics :=
  let samples := m.samples ++ [(now, sizeBytes)]
  let cutoff := now - m.window_seconds
  { m with samples :=
      listTakeLast (samples.filter fun p => decide (p.1 > cutoff)) m.max_samples }

/-- `BandwidthMetrics.estimate_throughput`: none models float(inf). -/
def BandwidthMetrics.estimateThroughput (m : BandwidthMetrics) : Option Rat :=
  if m.samples.length < 2 then Option.none
  else
    let firstTs := (m.samples.head?.map Prod.fst).getD 0
    let lastTs := (m.samples.getLast?.map Prod.fst).getD 0
    let duration := lastTs - firstTs
    if duration ≤ 0 then Option.none
    else some (((m.samples.map Prod.snd).sum : Int) / duration)

/-- The adaptive quality controller. -/
structure AdaptiveQuality where
  min_quality : Int := 30
  max_quality : Int := 90
  quality : Int := 70
  target_frame_budget_bytes : Int := 100000
  bandwidth_metrics : BandwidthMetrics := {}
deriving DecidableEq, Repr

/-- `AdaptiveQuality.__init__` (no clamping of initial_quality). -/
def AdaptiveQuality.init (minQuality maxQuality initialQuality targetBudget : Int) :
    AdaptiveQuality :=
  { min_quality := minQuality, max_quality := maxQuality,
    quality := initialQuality, target_frame_budget_bytes := targetBudget,
    bandwidth_metrics := {} }

/-- `AdaptiveQuality.update`. -/
def AdaptiveQuality.update (aq : AdaptiveQuality) (now : Rat)
    (frameSizeBytes : Int) (frameIntervalSeconds : Rat) : AdaptiveQuality :=
  let metrics := aq.bandwidth_metrics.addSample now frameSizeBytes
  let aq := { aq with bandwidth_metrics := metrics }
  match metrics.estimateThroughput with
  | Option.none => aq
  | some throughput =>
    let theoreticalMax := throughput * frameIntervalSeconds * ((8 : Rat)/10)
    let actualBudget := min theoreticalMax (aq.target_frame_budget_bytes : Rat)
    if (frameSizeBytes : Rat) > actualBudget * ((12 : Rat)/10) then
      { aq with quality := max aq.min_quality (aq.quality - 5) }
    else if (frameSizeBytes : Rat) < actualBudget * ((5 : Rat)/10) then
      { aq with quality := min aq.max_quality (aq.quality + 2) }
    else aq

/-- `AdaptiveQuality.get_quality`. -/
def AdaptiveQuality.getQuality (aq : AdaptiveQuality) : Int := aq.quality

/-- `AdaptiveQuality.set_quality`: clamp into the configured bounds. -/
def AdaptiveQuality.setQuality (aq : AdaptiveQuality) (q : Int) : AdaptiveQuality :=
  { aq with quality := max aq.min_quality (min aq.max_quality q) }

/-- `AdaptiveQuality.reset`: quality back to the literal 70. -/
def AdaptiveQuality.reset (aq : AdaptiveQuality) : AdaptiveQuality :=
  { aq with quality := 70, bandwidth_metrics := {} }

/-- An observable operation on the controller. -/
inductive AQOp where
  | update : Rat → Int → Rat → AQOp
  | setQuality : Int → AQOp
  | reset : AQOp
deriving DecidableEq, Repr

/-- Apply one operation. -/
def AQOp.apply (aq : AdaptiveQuality) : AQOp → AdaptiveQuality
  | AQOp.update now size interval => aq.update now size interval
  | AQOp.setQuality q => aq.setQuality q
  | AQOp.reset => aq.reset

/-- Run a sequence of operations. -/
def AdaptiveQuality.run (aq : AdaptiveQuality) (ops : List AQOp) : AdaptiveQuality :=
  ops.foldl AQOp.apply aq

/-! ## Command status endpoint (src/agent/api/server.py, get_command_status) -/

/-- The response model of `GET /commands/{id}`. -/
structure CommandStatusResponse where
  id : PyVal
  type : String
  status : String
  result : Option (Assoc String PyVal)
  error : Option String
deriving DecidableEq, Repr

/-- An HTTPException raised by a handler. -/
structure HttpError where
  statusCode : Nat
  detail : String
deriving DecidableEq, Repr

/--
`get_command_status` handler: look the command up in the queue
directory and return its status, result data and error; an unknown id
raises 404.  The authenticated `clientId` is bound by the dependency
but never consulted.
-/
def Server.getCommandStatus (st : QueueState) (clientId : String)
    (commandId : PyVal) : Except HttpError CommandStatusResponse :=
  match CommandQueue.getStatus st commandId with
  | some command =>
    Except.ok
      { id := command.id
        type := command.type.value
        status := command.status.value
        result := command.result.bind CommandResult.data
        error := command.result.bind CommandResult.error }
  | Option.none =>
    Except.error { statusCode := 404,
                   detail := "Command " ++ commandId.fmt ++ " not found" }

/-! ## Claim C1: batch atomicity of submit -/

/-- A well-formed raw move command with the given id. -/
def rawMove (id : String) (x y : Int) : RawCmd :=
  [("id", PyVal.str id), ("type", PyVal.str "move"),
    ("x", PyVal.int x), ("y", PyVal.int y)]

/-- A raw command with an id but no type field. -/
def rawNoType (id : String) : RawCmd := [("id", PyVal.str id)]

/--
Claim C1, counterexample.  Submitting the batch [valid move "c1",
command "c2" without a type] from the empty queue raises
InvalidCommandError, yet "c1" has already been inserted: get_status
finds it Queued and the FIFO holds one entry, so the queue and the
directory are not left unchanged and not every id of the batch is
unknown afterwards.
-/
theorem C1_counterexample :
    (CommandQueue.submit QueueState.init [rawMove "c1" 10 20, rawNoType "c2"]
        "sess-1" 0).2 =
      Except.error (SubmitError.invalidCommand
        ("Command c2 missing type field")) ∧
    (CommandQueue.getStatus
        (CommandQueue.submit QueueState.init [rawMove "c1" 10 20, rawNoType "c2"]
          "sess-1" 0).1 (PyVal.str "c1")).map Command.status =
      some CommandStatus.queued ∧
    ((CommandQueue.submit QueueState.init [rawMove "c1" 10 20, rawNoType "c2"]
        "sess-1" 0).1).fifo.length = 1 := by
  decide

/--
Claim C1, amended: when a batch fails (validation failure, duplicate
id, or queue-full), the batch is rejected from the failing element
onward, but the elements before it have already been accepted and
remain in the queue and directory: the state produced by the failing
submission is exactly the state produced by submitting some proper
prefix of the batch, which succeeds.
-/
theorem C1_submit_failure_keeps_accepted_prefix (batch : List RawCmd)
    (st st' : QueueState) (sid : String) (now : Int) (e : SubmitError)
    (hrun : CommandQueue.submit st batch sid now = (st', Except.error e)) :
    ∃ pre post ids, batch = pre ++ post ∧
      CommandQueue.submit st pre sid now = (st', Except.ok ids) := by
  induction batch generalizing st with
  | nil =>
    rw [CommandQueue.submit, CommandQueue.submitGo] at hrun
    simp only [Prod.mk.injEq] at hrun
    exact absurd hrun.2 (by simp)
  | cons c cs ih =>
    rw [CommandQueue.submit, CommandQueue.submitGo] at hrun
    split at hrun
    case h_1 e1 hone =>
      simp only [Prod.mk.injEq] at hrun
      refine ⟨[], c :: cs, [], by simp, ?_⟩
      rw [CommandQueue.submit, CommandQueue.submitGo, ← hrun.1]
    case h_2 stM cid hone =>
      split at hrun
      case h_1 stR ids hrest =>
        simp only [Prod.mk.injEq] at hrun
        exact absurd hrun.2 (by simp)
      case h_2 stR e2 hrest =>
        simp only [Prod.mk.injEq] at hrun
        obtain ⟨pre', post', ids', hsplit, hpre⟩ :=
          ih stM (by rw [CommandQueue.submit, hrest, hrun.1, hrun.2])
        refine ⟨c :: pre', post', cid :: ids', by simp [hsplit], ?_⟩
        rw [CommandQueue.submit, CommandQueue.submitGo, hone]
        dsimp only
        rw [CommandQueue.submit] at hpre
        rw [hpre]

/--
Claim C1, witness for the amended theorem at the counterexample batch.
-/
theorem C1_witness :
    ∃ pre post ids,
      ([rawMove "c1" 10 20, rawNoType "c2"] : List RawCmd) = pre ++ post ∧
      CommandQueue.submit QueueState.init pre "sess-1" 0 =
        ((CommandQueue.submit QueueState.init
            [rawMove "c1" 10 20, rawNoType "c2"] "sess-1" 0).1,
          Except.ok ids) :=
  C1_submit_failure_keeps_accepted_prefix
    [rawMove "c1" 10 20, rawNoType "c2"] QueueState.init _ "sess-1" 0
    (SubmitError.invalidCommand ("Command c2 missing type field")) (by decide)

/-! ## Association list lemmas -/

/-- Setting a key makes it look up to the new value. -/
theorem Assoc.get?_set_self {κ α : Type} [DecidableEq κ] (l : Assoc κ α)
    (k : κ) (v : α) : (l.set k v).get? k = some v := by
  induction l with
  | nil => simp [Assoc.set, Assoc.get?]
  | cons p rest ih =>
    by_cases h : p.1 = k <;> simp [Assoc.set, Assoc.get?, h, ih]

/-- Setting a key leaves other lookups unchanged. -/
theorem Assoc.get?_set_ne {κ α : Type} [DecidableEq κ] (l : Assoc κ α)
    (k k' : κ) (v : α) (h : k ≠ k') : (l.set k v).get? k' = l.get? k' := by
  induction l with
  | nil => simp [Assoc.set, Assoc.get?, h]
  | cons p rest ih =>
    by_cases hp : p.1 = k <;> simp [Assoc.set, Assoc.get?, hp, h, ih]

/-- A successful lookup is a member of the list. -/
theorem Assoc.mem_of_get? {κ α : Type} [DecidableEq κ] (l : Assoc κ α)
    (k : κ) (v : α) (h : l.get? k = some v) : (k, v) ∈ l := by
  induction l with
  | nil => simp [Assoc.get?] at h
  | cons p rest ih =>
    rw [Assoc.get?] at h
    by_cases hp : p.1 = k
    · rw [if_pos hp] at h
      have hv : p.2 = v := Option.some.inj h
      have hpv : p = (k, v) := by
        obtain ⟨p1, p2⟩ := p
        simp only at hp hv
        simp [hp, hv]
      rw [← hpv]
      exact List.mem_cons_self p rest
    · rw [if_neg hp] at h
      right
      exact ih h

/-! ## Session table lemmas for the kill switch path -/

/-- Every entry of the session table is keyed by its session id. -/
abbrev sessionsKeyed (t : Assoc String Session) : Prop :=
  ∀ p ∈ t, p.2.session_id = p.1

/-- Assoc.set preserves sessionsKeyed when the value carries the key. -/
theorem sessionsKeyed_set (t : Assoc String Session) (k : String) (v : Session)
    (hwf : sessionsKeyed t) (hv : v.session_id = k) :
    sessionsKeyed (t.set k v) := by
  induction t with
  | nil => intro p hp; simp [Assoc.set] at hp; simp [hp, hv]
  | cons q rest ih =>
    intro p hp
    rw [Assoc.set] at hp
    by_cases hq : q.1 = k
    · rw [if_pos hq] at hp
      rcases List.mem_cons.mp hp with h1 | h2
      · simp [h1, hv]
      · exact hwf p (List.mem_cons_of_mem q h2)
    · rw [if_neg hq] at hp
      rcases List.mem_cons.mp hp with h1 | h2
      · exact hwf p (h1 ▸ List.mem_cons_self q rest)
      · exact ih (fun r hr => hwf r (List.mem_cons_of_mem q hr)) p h2

/-- endSessionInternal preserves the keying invariant. -/
theorem endSessionInternal_keyed (sm : SessionManagerState) (s : Session)
    (now : Int) (hwf : sessionsKeyed sm.sessions) :
    sessionsKeyed (SessionManager.endSessionInternal sm s now).sessions := by
  rw [SessionManager.endSessionInternal]
  exact sessionsKeyed_set _ _ _ hwf rfl

/-- endSessionInternal never resurrects an ended entry: a lookup after
it is either the freshly ended session or the unchanged old entry. -/
theorem endSessionInternal_get? (sm : SessionManagerState) (s : Session)
    (now : Int) (k : String) :
    (SessionManager.endSessionInternal sm s now).sessions.get? k =
      (if s.session_id = k
        then some { s with ended_at := some now, state := SessionState.ended }
        else sm.sessions.get? k) := by
  rw [SessionManager.endSessionInternal]
  by_cases h : s.session_id = k
  · simp only [if_pos h]
    exact h ▸ Assoc.get?_set_self sm.sessions s.session_id _
  · simp only [if_neg h]
    exact Assoc.get?_set_ne sm.sessions s.session_id k _ h

/-- The expiry step preserves the keying invariant. -/
theorem expireStep_keyed (now : Int) (acc : SessionManagerState) (s0 : Session)
    (hwf : sessionsKeyed acc.sessions) :
    sessionsKeyed (SessionManager.expireStep now acc s0).sessions := by
  rw [SessionManager.expireStep]
  cases h : acc.sessions.get? s0.session_id with
  | none => exact hwf
  | some s =>
    by_cases hc : s.isActive ∧ SessionManager.isExpired acc s now
    · simp only [if_pos hc]
      exact endSessionInternal_keyed acc s now hwf
    · simp only [if_neg hc]
      exact hwf

/-- The expiry sweep preserves the keying invariant. -/
theorem expireFold_keyed (now : Int) (V : List Session) :
    ∀ acc : SessionManagerState, sessionsKeyed acc.sessions →
      sessionsKeyed (V.foldl (SessionManager.expireStep now) acc).sessions := by
  induction V with
  | nil => intro acc h; exact h
  | cons s0 rest ih =>
    intro acc h
    exact ih _ (expireStep_keyed now acc s0 h)

/-- Lookups that are defined stay defined across the expiry sweep and
the force-end sweep (both only replace entries at existing keys). -/
theorem endSessionInternal_defined (sm : SessionManagerState) (s : Session)
    (now : Int) (k : String) (h : (sm.sessions.get? k).isSome) :
    ((SessionManager.endSessionInternal sm s now).sessions.get? k).isSome := by
  rw [endSessionInternal_get?]
  by_cases hk : s.session_id = k
  · simp [hk]
  · simpa [hk] using h

/-- An ended entry stays ended across one force-end step. -/
theorem forceEndStep_preserves_ended (now : Int) (acc : SessionManagerState × Nat)
    (s0 : Session) (k : String)
    (h : ∀ s, acc.1.sessions.get? k = some s → s.state = SessionState.ended) :
    ∀ s, (SessionManager.forceEndStep now acc s0).1.sessions.get? k = some s →
      s.state = SessionState.ended := by
  intro s hs
  rw [SessionManager.forceEndStep] at hs
  cases hget : acc.1.sessions.get? s0.session_id with
  | none => rw [hget] at hs; exact h s hs
  | some cur =>
    rw [hget] at hs
    by_cases hact : cur.isActive
    · simp only [if_pos hact] at hs
      rw [endSessionInternal_get?] at hs
      by_cases hk : cur.session_id = k
      · rw [if_pos hk] at hs
        cases Option.some.inj hs
        rfl
      · rw [if_neg hk] at hs
        exact h s hs
    · simp only [if_neg hact] at hs
      exact h s hs

/-- After one force-end step, the entry at the key of the processed
snapshot object is ended, provided the table is keyed and the key is
present. -/
theorem forceEndStep_ends_self (now : Int) (acc : SessionManagerState × Nat)
    (s0 : Session) (cur : Session)
    (hwf : sessionsKeyed acc.1.sessions)
    (hget : acc.1.sessions.get? s0.session_id = some cur) :
    ∀ s, (SessionManager.forceEndStep now acc s0).1.sessions.get? s0.session_id =
        some s → s.state = SessionState.ended := by
  intro s hs
  have hcurId : cur.session_id = s0.session_id :=
    hwf (s0.session_id, cur) (Assoc.mem_of_get? _ _ _ hget)
  rw [SessionManager.forceEndStep, hget] at hs
  by_cases hact : cur.isActive
  · simp only [if_pos hact] at hs
    rw [endSessionInternal_get?, if_pos hcurId] at hs
    cases Option.some.inj hs
    rfl
  · simp only [if_neg hact] at hs
    rw [hget] at hs
    cases Option.some.inj hs
    have : ¬ cur.state = SessionState.active := by
      simpa [Session.isActive] using hact
    cases hstate : cur.state with
    | active => exact absurd hstate this
    | ended => rfl

/-- One force-end step preserves the keying invariant. -/
theorem forceEndStep_keyed (now : Int) (acc : SessionManagerState × Nat)
    (s0 : Session) (hwf : sessionsKeyed acc.1.sessions) :
    sessionsKeyed (SessionManager.forceEndStep now acc s0).1.sessions := by
  rw [SessionManager.forceEndStep]
  cases h : acc.1.sessions.get? s0.session_id with
  | none => exact hwf
  | some s =>
    by_cases hact : s.isActive
    · simp only [if_pos hact]
      exact endSessionInternal_keyed acc.1 s now hwf
    · simp only [if_neg hact]
      exact hwf

/-- Folding force-end steps over a snapshot list ends the entry of
every key that appears as the session id of a snapshot element, and
preserves already-ended entries. -/
theorem forceEndFold_ends (now : Int) (V : List Session) :
    ∀ acc : SessionManagerState × Nat, sessionsKeyed acc.1.sessions →
    ∀ k, (k ∈ V.map Session.session_id ∧ (acc.1.sessions.get? k).isSome) ∨
        (∀ s, acc.1.sessions.get? k = some s → s.state = SessionState.ended) →
      ∀ s, (V.foldl (SessionManager.forceEndStep now) acc).1.sessions.get? k =
          some s → s.state = SessionState.ended := by
  induction V with
  | nil =>
    intro acc hwf k hk s hs
    rcases hk with ⟨hmem, _⟩ | hended
    · simp at hmem
    · exact hended s hs
  | cons s0 rest ih =>
    intro acc hwf k hk
    rw [List.foldl_cons]
    apply ih (SessionManager.forceEndStep now acc s0)
      (forceEndStep_keyed now acc s0 hwf)
    by_cases hkid : k = s0.session_id
    · right
      rcases hk with ⟨_, hdef⟩ | hended
      · obtain ⟨cur, hcur⟩ := Option.isSome_iff_exists.mp hdef
        subst hkid
        exact forceEndStep_ends_self now acc s0 cur hwf hcur
      · exact forceEndStep_preserves_ended now acc s0 k hended
    · rcases hk with ⟨hmem, hdef⟩ | hended
      · rcases List.mem_map.mp hmem with ⟨w, hw, hwid⟩
        rcases List.mem_cons.mp hw with h1 | h2
        · exact absurd (h1 ▸ hwid).symm hkid
        · left
          constructor
          · exact List.mem_map.mpr ⟨w, h2, hwid⟩
          · rw [SessionManager.forceEndStep]
            cases hget : acc.1.sessions.get? s0.session_id with
            | none => exact hdef
            | some cur =>
              by_cases hact : cur.isActive
              · simp only [if_pos hact]
                exact endSessionInternal_defined acc.1 cur now k hdef
              · simp only [if_neg hact]
                exact hdef
      · right
        exact forceEndStep_preserves_ended now acc s0 k hended

/-- force_end_all_sessions leaves every table entry Ended (keyed table). -/
theorem forceEndAllSessions_all_ended (sm : SessionManagerState) (now : Int)
    (hwf : sessionsKeyed sm.sessions) :
    ∀ k s, (SessionManager.forceEndAllSessions sm now).1.sessions.get? k =
        some s → s.state = SessionState.ended := by
  intro k s hs
  rw [SessionManager.forceEndAllSessions] at hs
  refine forceEndFold_ends now sm.sessions.values (sm, 0) hwf k ?_ s hs
  cases hget : sm.sessions.get? k with
  | none =>
    right
    intro s' hs'
    exact absurd hs' (by simp)
  | some cur =>
    left
    refine ⟨?_, by simp⟩
    have hmem : (k, cur) ∈ sm.sessions := Assoc.mem_of_get? _ _ _ hget
    have hid : cur.session_id = k := hwf (k, cur) hmem
    exact List.mem_map.mpr ⟨cur, List.mem_map.mpr ⟨(k, cur), hmem, rfl⟩, hid⟩

/-- The expiry sweep of get_active_sessions preserves the keying. -/
theorem getActiveSessions_keyed (sm : SessionManagerState) (now : Int)
    (hwf : sessionsKeyed sm.sessions) :
    sessionsKeyed (SessionManager.getActiveSessions sm now).1.sessions := by
  rw [SessionManager.getActiveSessions]
  exact expireFold_keyed now sm.sessions.values sm hwf

/-! ## Claim C2: kill switch ordering and command cancellation -/

/-- A server state with one active session S of client c and one
queued command k1 belonging to S. -/
def killSwitchScenario : AgentState :=
  { sessions :=
      { sessions := [("S", { session_id := "S", client_id := "c", started_at := 0 })]
        client_sessions := [("c", "S")] }
    queue :=
      { heap := [{ id := PyVal.str "k1", type := CommandType.move,
                   session_id := "S",
                   params := [("x", PyVal.int 1), ("y", PyVal.int 2)],
                   created_at := 0 }]
        fifo := [0]
        commands := [(PyVal.str "k1", 0)] }
    killSwitch := {} }

/--
Claim C2, counterexample.  Activating the kill switch with session S
active and command k1 queued for S ends the session and emits the
broadcast, but the queued command is never transitioned: after the
entire activation (hence also at the moment of the broadcast) k1 is
still Queued with no result, not Failed with error "Session ended".
activate_kill_switch never calls cancel_session_commands.
-/
theorem C2_counterexample :
    (Server.activateKillSwitch killSwitchScenario "c" 1).1.killSwitch.active = true ∧
    ((Server.activateKillSwitch killSwitchScenario "c" 1).1.sessions.sessions.get?
        "S").map Session.state = some SessionState.ended ∧
    (CommandQueue.getStatus (Server.activateKillSwitch killSwitchScenario "c" 1).1.queue
        (PyVal.str "k1")).map Command.status = some CommandStatus.queued ∧
    (CommandQueue.getStatus (Server.activateKillSwitch killSwitchScenario "c" 1).1.queue
        (PyVal.str "k1")).map Command.result = some Option.none := by
  decide

/--
Claim C2, amended: when the kill switch is activated, every session in
the table is Ended in the state at which the single kill_switch
broadcast is emitted (sessions are transitioned before the broadcast),
and the kill switch is active; however queued commands are NOT
cancelled: the command queue state at the broadcast is exactly the
queue state before activation, so commands of the ended sessions stay
Queued (cancel_session_commands runs only in the session/end handler).
Hypothesis: every session-table entry is keyed by its session id (true
of every table built by start_session).
-/
theorem C2_killswitch_broadcast_after_end (st : AgentState) (clientId : String)
    (now : Int) (hwf : sessionsKeyed st.sessions.sessions) :
    ∃ ev : BroadcastEvent,
      (Server.activateKillSwitch st clientId now).2 =
        [((Server.activateKillSwitch st clientId now).1, ev)] ∧
      ev.name = "kill_switch" ∧ ev.activated = true ∧
      (∀ k s, (Server.activateKillSwitch st clientId now).1.sessions.sessions.get? k =
          some s → s.state = SessionState.ended) ∧
      (Server.activateKillSwitch st clientId now).1.queue = st.queue ∧
      (Server.activateKillSwitch st clientId now).1.killSwitch.active = true := by
  refine ⟨_, rfl, rfl, rfl, ?_, rfl, rfl⟩
  intro k s hs
  exact forceEndAllSessions_all_ended _ now
    (getActiveSessions_keyed st.sessions now hwf) k s hs

/-- Claim C2, witness for the amended theorem at the concrete scenario. -/
theorem C2_witness :
    ∃ ev : BroadcastEvent,
      (Server.activateKillSwitch killSwitchScenario "c" 1).2 =
        [((Server.activateKillSwitch killSwitchScenario "c" 1).1, ev)] ∧
      ev.name = "kill_switch" ∧ ev.activated = true ∧
      (∀ k s, (Server.activateKillSwitch killSwitchScenario "c" 1).1.sessions.sessions.get? k =
          some s → s.state = SessionState.ended) ∧
      (Server.activateKillSwitch killSwitchScenario "c" 1).1.queue =
        killSwitchScenario.queue ∧
      (Server.activateKillSwitch killSwitchScenario "c" 1).1.killSwitch.active = true :=
  C2_killswitch_broadcast_after_end killSwitchScenario "c" 1 (by decide)

/-! ## Claim C3: monotone transitions and skipping cancelled commands -/

/-- Queue after accepting the single move command c1 for session s. -/
def c3_state0 : QueueState :=
  (CommandQueue.submit QueueState.init [rawMove "c1" 5 5] "s" 0).1

/-- The same queue after cancel_session_commands for s at time 1. -/
def c3_cancelled : QueueState :=
  (CommandQueue.cancelSessionCommands c3_state0 "s" 1).1

/-- The queue after the worker then dequeues and executes c1. -/
def c3_final : QueueState :=
  CommandQueue.processStep
    (ExecOutcome.res { success := true, executed_at := some 2 }) 2 3 c3_cancelled

/--
Claim C3, counterexample.  A command cancelled to Failed ("Session
ended") by cancel_session_commands while still in the FIFO is NOT
skipped by the worker: _process_loop dequeues it and execute sets it
Running and then overwrites the terminal Failed state with the new
outcome, here Succeeded, so the command leaves a terminal state and
is executed after cancellation.
-/
theorem C3_counterexample :
    (CommandQueue.getStatus c3_cancelled (PyVal.str "c1")).map Command.status =
      some CommandStatus.failed ∧
    (CommandQueue.getStatus c3_cancelled (PyVal.str "c1")).map Command.result =
      some (some { success := false, error := some ("Session ended"),
                   executed_at := some 1 }) ∧
    (CommandQueue.getStatus c3_final (PyVal.str "c1")).map Command.status =
      some CommandStatus.succeeded ∧
    (CommandQueue.getStatus c3_final (PyVal.str "c1")).map Command.started_at =
      some (some 2) := by
  decide

/--
Claim C3, amended: within one execution, transitions are Queued to
Running to a terminal state; but the worker performs no status check
when dequeuing, so a command cancelled to Failed while waiting in the
FIFO is re-executed when dequeued: its status is set to Running, then
to the terminal state of the new outcome, and its previous terminal
result is overwritten.  Monotonicity therefore fails exactly for
commands that are dequeued after having been cancelled.
-/
theorem C3_worker_does_not_skip_cancelled (st : QueueState) (ref : Nat)
    (rest : List Nat) (cmd : Command) (r : CommandResult) (t1 t2 : Int)
    (hfifo : st.fifo = ref :: rest) (hcmd : st.heap.get? ref = some cmd) :
    (CommandQueue.processStep (ExecOutcome.res r) t1 t2 st).heap.get? ref =
      some { cmd with
             status := if r.success then CommandStatus.succeeded
                       else CommandStatus.failed
             started_at := some t1
             result := some r
             completed_at := some t2 } := by
  rw [CommandQueue.processStep]
  rw [hfifo]
  dsimp only
  rw [CommandQueue.execute.eq_def]
  simp only [hcmd]
  rw [List.get?_set_eq]
  rw [hcmd]
  rfl

/-- Claim C3, witness for the amended theorem at the cancelled command. -/
theorem C3_witness :
    (CommandQueue.processStep
        (ExecOutcome.res { success := true, executed_at := some 2 }) 2 3
        c3_cancelled).heap.get? 0 =
      some { id := PyVal.str "c1", type := CommandType.move, session_id := "s",
             params := [("x", PyVal.int 5), ("y", PyVal.int 5)],
             status := CommandStatus.succeeded,
             result := some { success := true, executed_at := some 2 },
             created_at := 0, started_at := some 2, completed_at := some 3 } :=
  C3_worker_does_not_skip_cancelled c3_cancelled 0 []
    { id := PyVal.str "c1", type := CommandType.move, session_id := "s",
      params := [("x", PyVal.int 5), ("y", PyVal.int 5)],
      status := CommandStatus.failed,
      result := some { success := false, error := some ("Session ended"),
                       executed_at := some 1 },
      created_at := 0, started_at := Option.none, completed_at := some 1 }
    { success := true, executed_at := some 2 } 2 3 (by decide) (by decide)

/-! ## Claim C4: read-back verification of move and drag -/

/-- verify_cursor_position succeeds exactly within the 5 px tolerance. -/
theorem verifyCursorPosition_success_iff (cursor : Int × Int) (x y : Int) :
    (VerifierBase.verifyCursorPosition cursor x y).success = true ↔
      |cursor.1 - x| ≤ 5 ∧ |cursor.2 - y| ≤ 5 := by
  simp [VerifierBase.verifyCursorPosition]

/-- verify_cursor_position carries an error message exactly on failure. -/
theorem verifyCursorPosition_error_of_fail (cursor : Int × Int) (x y : Int)
    (h : ¬ (|cursor.1 - x| ≤ 5 ∧ |cursor.2 - y| ≤ 5)) :
    (VerifierBase.verifyCursorPosition cursor x y).error ≠ Option.none := by
  simp only [VerifierBase.verifyCursorPosition]
  simp [h]

/--
Claim C4, counterexample.  A drag whose input call succeeds but whose
final cursor read-back is 300 px away from the requested end point is
reported successful with no error: _handle_drag computes the
verification but takes success and error from the drag call alone, so
the drag half of the claim fails.
-/
theorem C4_counterexample :
    (VerifierBase.verifyCursorPosition (300, 300) 0 0).success = false ∧
    (CommandExecutor.handleDrag { success := true } (300, 300) 0 0 0).success =
      true ∧
    (CommandExecutor.handleDrag { success := true } (300, 300) 0 0 0).error =
      Option.none := by
  decide

/--
Claim C4, amended: for move the claim holds: the result is successful
only if the post-move cursor is within 5 px per axis of the target,
and a failed read-back yields an unsuccessful result with an error
message.  For drag the verification result is computed and attached to
the result data, but the success flag and the error are those of the
input call alone, so a drag can succeed with the cursor arbitrarily
far from the end coordinates.
-/
theorem C4_move_verified_drag_unverified (mr dr : InputCallResult)
    (cursor : Int × Int) (x y : Int) (now : Int) :
    ((CommandExecutor.handleMove mr cursor x y now).success = true →
      mr.success = true ∧ |cursor.1 - x| ≤ 5 ∧ |cursor.2 - y| ≤ 5) ∧
    (¬ (|cursor.1 - x| ≤ 5 ∧ |cursor.2 - y| ≤ 5) →
      (CommandExecutor.handleMove mr cursor x y now).success = false ∧
      (CommandExecutor.handleMove mr cursor x y now).error ≠ Option.none) ∧
    (CommandExecutor.handleDrag dr cursor x y now).success = dr.success ∧
    (CommandExecutor.handleDrag dr cursor x y now).error = dr.error := by
  refine ⟨?_, ?_, rfl, rfl⟩
  · intro h
    simp only [CommandExecutor.handleMove, Bool.and_eq_true] at h
    exact ⟨h.1, (verifyCursorPosition_success_iff cursor x y).mp h.2⟩
  · intro h
    constructor
    · simp only [CommandExecutor.handleMove]
      have hv : (VerifierBase.verifyCursorPosition cursor x y).success = false :=
        Bool.eq_false_iff.mpr
          (fun hc => h ((verifyCursorPosition_success_iff cursor x y).mp hc))
      simp [hv]
    · simp only [CommandExecutor.handleMove]
      have herr := verifyCursorPosition_error_of_fail cursor x y h
      cases hme : mr.error with
      | none => simpa [pyStrOr] using herr
      | some s =>
        by_cases hs : s = ""
        · simpa [pyStrOr, hs] using herr
        · simp [pyStrOr, hs]

/-- Claim C4, witness: an in-tolerance move applied to the theorem. -/
theorem C4_witness :
    ({ success := true } : InputCallResult).success = true ∧
    |(103 : Int) - 100| ≤ 5 ∧ |(198 : Int) - 200| ≤ 5 :=
  (C4_move_verified_drag_unverified { success := true } { success := true }
    (103, 198) 100 200 0).1 (by decide)

/-! ## Claim C5: bearer authentication -/

/--
Claim C5, counterexample.  The module-level default of auth.py is LAN
mode on, and in LAN mode verify_token never raises 401: a request with
no bearer token at all is processed as the authenticated client
"lan-client", even with no paired clients.
-/
theorem C5_counterexample :
    Auth.lanModeDefault = true ∧
    Auth.verifyToken (fun s => s) Auth.lanModeDefault [] Option.none =
      AuthResult.ok "lan-client" := by
  decide

/--
Claim C5, amended: only when LAN mode is disabled does a missing or
unrecognised bearer token yield a 401 Unauthenticated failure, and an
accepted request is one whose token digest matches a paired client; in
LAN mode, the default, authentication is skipped entirely and every
request is processed as an authenticated client.
-/
theorem C5_auth_401_when_not_lan (sha : String → String)
    (clients : List PairedClient) :
    (Auth.verifyToken sha false clients Option.none =
      AuthResult.httpError 401 ("Not authenticated")) ∧
    (∀ t, t ≠ "" → (∀ c ∈ clients, c.token_hash ≠ sha t) →
      Auth.verifyToken sha false clients (some t) =
        AuthResult.httpError 401 ("Invalid or expired token")) ∧
    (∀ t cid, Auth.verifyToken sha false clients (some t) = AuthResult.ok cid →
      ∃ c ∈ clients, c.token_hash = sha t ∧ cid = c.client_id) := by
  refine ⟨rfl, ?_, ?_⟩
  · intro t ht hmiss
    rw [Auth.verifyToken]
    simp only [Bool.false_eq_true, if_false, if_neg ht]
    have hnone : clients.find? (fun c => c.token_hash = sha t) = Option.none := by
      rw [List.find?_eq_none]
      intro c hc
      simp [hmiss c hc]
    rw [Auth.verifyTokenHash, hnone]
    rfl
  · intro t cid h
    rw [Auth.verifyToken] at h
    simp only [Bool.false_eq_true, if_false] at h
    by_cases ht : t = ""
    · rw [if_pos ht] at h
      exact absurd h (by simp)
    · rw [if_neg ht, Auth.verifyTokenHash] at h
      cases hf : clients.find? (fun c => c.token_hash = sha t) with
      | none => rw [hf] at h; exact absurd h (by simp)
      | some c =>
        rw [hf] at h
        have h' : AuthResult.ok c.client_id = AuthResult.ok cid := h
        refine ⟨c, List.mem_of_find?_eq_some hf, ?_, ?_⟩
        · have := List.find?_some hf
          simpa using this
        · cases h'
          rfl

/-- Claim C5, witness for the amended theorem: no token, LAN mode off. -/
theorem C5_witness :
    Auth.verifyToken (fun s => String.append "#" s) false [] Option.none =
      AuthResult.httpError 401 ("Not authenticated") :=
  (C5_auth_401_when_not_lan (fun s => String.append "#" s) []).1

/-! ## Claim C6: pairing request with an unparseable public key -/

/-- A fresh pairing manager state (LAN mode defaulted on). -/
def pmInit : PairingManagerState := { pending_requests := [], paired_clients := [] }

/--
Claim C6, counterexample.  create_pairing_request never parses the
public key: called with the clearly unparseable key string
"not a valid PEM public key" it returns a challenge response rather
than an invalid-argument failure, and a pending pairing record holding
the raw unparseable key is created.
-/
theorem C6_counterexample :
    (PairingManager.createPairingRequest pmInit "c-1" "App"
        ("not a valid PEM public key") "abc123" 0).2 =
      { challenge := "abc123", expires := 300, auto_approved := true } ∧
    ((PairingManager.createPairingRequest pmInit "c-1" "App"
        ("not a valid PEM public key") "abc123" 0).1.pending_requests.get?
        "c-1").map PairingRequest.client_public_key =
      some ("not a valid PEM public key") := by
  decide

/--
Claim C6, amended: request_pairing performs no public-key parsing at
all: every public_key string, parseable or not, is accepted; the
response carries the challenge with expiry now + 300 s, and a pending
record holding the raw key string is created (already Approved in LAN
mode).  A bad key surfaces only later, in confirm_pairing, where
loading the PEM fails signature verification, which outside LAN mode
aborts the pairing.
-/
theorem C6_request_never_rejects_key (st : PairingManagerState)
    (cid name pem ch : String) (now : Int) :
    (PairingManager.createPairingRequest st cid name pem ch now).2 =
      { challenge := ch, expires := now + 300, auto_approved := st.lan_mode } ∧
    (PairingManager.createPairingRequest st cid name pem ch
        now).1.pending_requests.get? cid =
      some { client_id := cid, client_name := name, client_public_key := pem,
             challenge := ch, created_at := now, expires_at := now + 300,
             state := if st.lan_mode then PairingState.approved
                      else PairingState.pending } := by
  constructor
  · rfl
  · simp only [PairingManager.createPairingRequest]
    exact Assoc.get?_set_self _ _ _

/-! ## Claim C7: global uniqueness of command ids -/

/-- Queue after accepting command "a". -/
def c7_accepted : QueueState :=
  (CommandQueue.submit QueueState.init [rawMove "a" 1 1] "s" 0).1

/-- The same queue after the worker completes "a" at time 2. -/
def c7_completed : QueueState :=
  CommandQueue.processStep
    (ExecOutcome.res { success := true, executed_at := some 1 }) 1 2 c7_accepted

/-- The queue after clear_completed at time 400 (age limit 300). -/
def c7_collected : QueueState :=
  (CommandQueue.clearCompleted c7_completed 400 300).1

/--
Claim C7, counterexample.  The id "a" is accepted, its command runs to
completion, clear_completed garbage-collects it from the directory,
and a later submission reusing the very same id "a" is accepted again:
ids are not unique across all commands ever seen by the process.
-/
theorem C7_counterexample :
    (CommandQueue.submit QueueState.init [rawMove "a" 1 1] "s" 0).2 =
      Except.ok [PyVal.str "a"] ∧
    (CommandQueue.clearCompleted c7_completed 400 300).2 = 1 ∧
    (CommandQueue.submit c7_collected [rawMove "a" 9 9] "s2" 500).2 =
      Except.ok [PyVal.str "a"] := by
  decide

/--
Claim C7, amended: command ids are unique only among the commands
currently present in the id directory: a submission whose element
reuses an id still present is rejected with a duplicate-id error and
leaves the state unchanged.  Once clear_completed has evicted an old
terminal command from the directory, its id can be accepted again, so
uniqueness does not extend across the whole process lifetime.
-/
theorem C7_duplicate_in_directory_rejected (st : QueueState) (s sid : String)
    (now : Int) (x y : Int) (hs : s ≠ "")
    (hdup : st.commands.hasKey (PyVal.str s) = true) :
    CommandQueue.submit st [rawMove s x y] sid now =
      (st, Except.error (SubmitError.invalidCommand
        ("Duplicate command ID: " ++ s))) := by
  have hdup' : (st.commands.get? (PyVal.str s)).isSome = true := hdup
  have hone : CommandQueue.submitOne st sid now (rawMove s x y) =
      Except.error (SubmitError.invalidCommand ("Duplicate command ID: " ++ s)) := by
    simp [CommandQueue.submitOne, rawMove, RawCmd.pyget, Assoc.get?,
      PyVal.truthy, hs, CommandType.ofString?, CommandQueue.validateParams,
      RawCmd.getD, Assoc.hasKey, PyVal.fmt, hdup', CommandQueue.extractParams,
      PyVal.isNumber, PyVal.toInt, Bind.bind, Except.bind, throw, throwThe,
      MonadExceptOf.throw, pure, Except.pure]
  rw [CommandQueue.submit, CommandQueue.submitGo, hone]

/-- Claim C7, witness: resubmitting "a" while it is still queued. -/
theorem C7_witness :
    CommandQueue.submit c7_accepted [rawMove "a" 3 4] "s" 7 =
      (c7_accepted, Except.error (SubmitError.invalidCommand
        ("Duplicate command ID: " ++ "a"))) :=
  C7_duplicate_in_directory_rejected c7_accepted "a" "s" 7 3 4 (by decide) (by decide)

/-! ## Claim C8: pair then verify round-trip -/

/-- Scanning a table after setting a record whose hash matches the
probe finds exactly that record, provided no other entry collides. -/
theorem find_set_fresh_hash (target : String) (cid : String) (rec : PairedClient)
    (hrec : rec.token_hash = target) :
    ∀ l : Assoc String PairedClient,
      (∀ p ∈ l, p.1 ≠ cid → p.2.token_hash ≠ target) →
      ((Assoc.set l cid rec).find? fun kv => kv.2.token_hash = target).map
          Prod.fst = some cid := by
  intro l
  induction l with
  | nil =>
    intro _
    simp [Assoc.set, List.find?, hrec]
  | cons q rest ih =>
    intro hfresh
    rw [Assoc.set]
    by_cases hq : q.1 = cid
    · rw [if_pos hq]
      simp [List.find?, hrec]
    · rw [if_neg hq]
      have hqh : q.2.token_hash ≠ target :=
        hfresh q (List.mem_cons_self q rest) hq
      rw [List.find?]
      rw [decide_eq_false hqh]
      exact ih fun p hp => hfresh p (List.mem_cons_of_mem q hp)

/--
Claim C8, confirmed: whenever confirm_pairing succeeds and returns a
plaintext token, the returned identifier is the supplied client id,
and an immediately following verify_token with that token returns
exactly that client id — provided the fresh token digest does not
collide with the stored digest of a different client (token digests
are 32 random bytes through SHA-256, so a collision is the negligible
crypto failure case).
-/
theorem C8_pair_verify_roundtrip (sha : String → String)
    (st st' : PairingManagerState) (clientId token : String) (sigOk : Bool)
    (approval : ApprovalOutcome) (now : Int) (r : PairConfirmResponse)
    (hrun : PairingManager.confirmPairing sha st clientId sigOk approval token
      now = (st', some r))
    (hfresh : ∀ p ∈ st.paired_clients, p.1 ≠ clientId →
      p.2.token_hash ≠ sha token) :
    r.client_id = clientId ∧ r.token = token ∧
    PairingManager.verifyToken sha st' r.token = some clientId := by
  rw [PairingManager.confirmPairing] at hrun
  split at hrun
  · exact absurd (congrArg Prod.snd hrun) (by simp)
  case h_2 request hreq =>
    dsimp only at hrun
    split at hrun
    · exact absurd (congrArg Prod.snd hrun) (by simp)
    case isFalse hexp =>
      by_cases hap :
          PairingManager.approvalAdvance st.lan_mode request.state approval =
            PairingState.approved
      · rw [if_pos hap] at hrun
        by_cases hsg : sigOk = false ∧ st.lan_mode = false
        · rw [if_pos hsg] at hrun
          exact absurd (congrArg Prod.snd hrun) (by simp)
        · rw [if_neg hsg] at hrun
          rw [Prod.mk.injEq] at hrun
          obtain ⟨hstt, hr2⟩ := hrun
          have hrr := Option.some.inj hr2
          refine ⟨by rw [← hrr], by rw [← hrr], ?_⟩
          rw [← hrr]
          rw [PairingManager.verifyToken, ← hstt]
          exact find_set_fresh_hash (sha token) clientId _ rfl
            st.paired_clients hfresh
      · rw [if_neg hap] at hrun
        exact absurd (congrArg Prod.snd hrun) (by simp)

/-- An approved pending request for client c-1, awaiting confirmation. -/
def c8_state : PairingManagerState :=
  { pending_requests :=
      [("c-1", { client_id := "c-1", client_name := "App",
                 client_public_key := "PEMKEY", challenge := "ch",
                 created_at := 0, expires_at := 300,
                 state := PairingState.approved })]
    paired_clients := [] }

/-- Claim C8, witness: a concrete successful confirmation round-trips. -/
theorem C8_witness :
    ({ paired := true, token := "tok", client_id := "c-1" } :
        PairConfirmResponse).client_id = "c-1" ∧
    ({ paired := true, token := "tok", client_id := "c-1" } :
        PairConfirmResponse).token = "tok" ∧
    PairingManager.verifyToken (fun s => String.append "#" s)
      (PairingManager.confirmPairing (fun s => String.append "#" s) c8_state
        "c-1" true ApprovalOutcome.noCallback "tok" 1).1
      ({ paired := true, token := "tok", client_id := "c-1" } :
        PairConfirmResponse).token = some "c-1" :=
  C8_pair_verify_roundtrip (fun s => String.append "#" s) c8_state
    (PairingManager.confirmPairing (fun s => String.append "#" s) c8_state
      "c-1" true ApprovalOutcome.noCallback "tok" 1).1
    "c-1" "tok" true ApprovalOutcome.noCallback 1
    { paired := true, token := "tok", client_id := "c-1" }
    (by decide) (by decide)

/-! ## Claim C9: adaptive quality bounds -/

/--
Claim C9, counterexample.  The constructor performs no clamping: with
bounds [30, 90] and initial_quality 100 the controller starts at
quality 100, above max_quality.  reset is also hard-coded to 70: with
bounds [10, 50] a reset leaves quality at 70, above max_quality.  So
the invariant does not hold for every construction and every
operation sequence.
-/
theorem C9_counterexample :
    (AdaptiveQuality.init 30 90 100 100000).getQuality = 100 ∧
    ¬ ((AdaptiveQuality.init 30 90 100 100000).getQuality ≤
        (AdaptiveQuality.init 30 90 100 100000).max_quality) ∧
    ((AdaptiveQuality.init 10 50 40 100000).reset).getQuality = 70 ∧
    ¬ (((AdaptiveQuality.init 10 50 40 100000).reset).getQuality ≤
        (AdaptiveQuality.init 10 50 40 100000).max_quality) := by
  decide

/-- One operation keeps the bounds and the in-range invariant,
provided the reset literal 70 lies within the configured bounds. -/
theorem AQOp.apply_preserves (aq : AdaptiveQuality) (op : AQOp)
    (h1 : aq.min_quality ≤ aq.quality) (h2 : aq.quality ≤ aq.max_quality)
    (h3 : aq.min_quality ≤ 70) (h4 : 70 ≤ aq.max_quality) :
    (AQOp.apply aq op).min_quality = aq.min_quality ∧
    (AQOp.apply aq op).max_quality = aq.max_quality ∧
    (AQOp.apply aq op).min_quality ≤ (AQOp.apply aq op).quality ∧
    (AQOp.apply aq op).quality ≤ (AQOp.apply aq op).max_quality := by
  cases op with
  | update now size interval =>
    simp only [AQOp.apply, AdaptiveQuality.update]
    split
    · exact ⟨by trivial, by trivial, h1, h2⟩
    · split
      · exact ⟨by trivial, by trivial, by dsimp only; omega, by dsimp only; omega⟩
      · split
        · exact ⟨by trivial, by trivial, by dsimp only; omega, by dsimp only; omega⟩
        · exact ⟨by trivial, by trivial, h1, h2⟩
  | setQuality q =>
    simp only [AQOp.apply, AdaptiveQuality.setQuality]
    exact ⟨by trivial, by trivial, by omega, by omega⟩
  | reset =>
    simp only [AQOp.apply, AdaptiveQuality.reset]
    exact ⟨by trivial, by trivial, h3, h4⟩

/--
Claim C9, amended: provided the controller is constructed with
min_quality ≤ initial_quality ≤ max_quality and with bounds containing
the reset literal 70 (all true of the product defaults 30 ≤ 70 ≤ 90),
the quality stays within [min_quality, max_quality] at every
observation point of every sequence of update, set_quality and reset
operations.  Without those provisos the invariant fails (constructor
and reset do not clamp).
-/
theorem C9_quality_stays_in_bounds (aq : AdaptiveQuality) (ops : List AQOp)
    (h1 : aq.min_quality ≤ aq.quality) (h2 : aq.quality ≤ aq.max_quality)
    (h3 : aq.min_quality ≤ 70) (h4 : 70 ≤ aq.max_quality) :
    (aq.run ops).min_quality ≤ (aq.run ops).getQuality ∧
    (aq.run ops).getQuality ≤ (aq.run ops).max_quality := by
  induction ops generalizing aq with
  | nil => exact ⟨h1, h2⟩
  | cons op rest ih =>
    obtain ⟨hmin, hmax, hq1, hq2⟩ := AQOp.apply_preserves aq op h1 h2 h3 h4
    exact ih (AQOp.apply aq op) hq1 hq2 (hmin ▸ h3) (hmax ▸ h4)

/-- Claim C9, witness: defaults with a set_quality and a reset. -/
theorem C9_witness :
    ((AdaptiveQuality.init 30 90 70 100000).run
        [AQOp.setQuality 95, AQOp.reset]).min_quality ≤
      ((AdaptiveQuality.init 30 90 70 100000).run
        [AQOp.setQuality 95, AQOp.reset]).getQuality ∧
    ((AdaptiveQuality.init 30 90 70 100000).run
        [AQOp.setQuality 95, AQOp.reset]).getQuality ≤
      ((AdaptiveQuality.init 30 90 70 100000).run
        [AQOp.setQuality 95, AQOp.reset]).max_quality :=
  C9_quality_stays_in_bounds (AdaptiveQuality.init 30 90 70 100000)
    [AQOp.setQuality 95, AQOp.reset]
    (by decide) (by decide) (by decide) (by decide)

/-! ## Claim C10: command status lookup has no ownership check -/

/--
Claim C10, confirmed: the GET /commands/id handler never consults the
authenticated client: its response is identical for any two clients;
when the id is in the directory it returns the command status, result
data and error unconditionally; and the only failure it can produce is
the 404 NotFound for an unknown id — there is no Forbidden path.
-/
theorem C10_status_no_ownership_check (st : QueueState) (c1 c2 : String)
    (cid : PyVal) :
    Server.getCommandStatus st c1 cid = Server.getCommandStatus st c2 cid ∧
    (∀ cmd, CommandQueue.getStatus st cid = some cmd →
      Server.getCommandStatus st c1 cid =
        Except.ok { id := cmd.id, type := cmd.type.value,
                    status := cmd.status.value,
                    result := cmd.result.bind CommandResult.data,
                    error := cmd.result.bind CommandResult.error }) ∧
    (CommandQueue.getStatus st cid = Option.none →
      Server.getCommandStatus st c1 cid =
        Except.error { statusCode := 404,
                       detail := "Command " ++ cid.fmt ++ " not found" }) := by
  refine ⟨rfl, ?_, ?_⟩
  · intro cmd h
    rw [Server.getCommandStatus, h]
  · intro h
    rw [Server.getCommandStatus, h]

/-- A queue holding one queued command k1 of session S. -/
def c10_queue : QueueState :=
  { heap := [{ id := PyVal.str "k1", type := CommandType.move, session_id := "S",
               params := [("x", PyVal.int 1), ("y", PyVal.int 2)],
               created_at := 0 }]
    fifo := [0]
    commands := [(PyVal.str "k1", 0)] }

/-- Claim C10, witness: the lookup succeeds for a non-owning client. -/
theorem C10_witness :
    Server.getCommandStatus c10_queue "not-the-owner" (PyVal.str "k1") =
      Except.ok { id := PyVal.str "k1", type := "move", status := "queued",
                  result := Option.none, error := Option.none } :=
  (C10_status_no_ownership_check c10_queue "not-the-owner" "another-client"
      (PyVal.str "k1")).2.1
    { id := PyVal.str "k1", type := CommandType.move, session_id := "S",
      params := [("x", PyVal.int 1), ("y", PyVal.int 2)], created_at := 0 }
    (by decide)
